import Mathlib

/-!
Verification of the websocket chat relay (`src/server.py`).

A shallow embedding of the server's core: the global `clients` registry
(a Python dict from client id to session record), the `broadcast` fan-out
(including its task-creation / `asyncio.gather` structure), and the
per-connection `handler` coroutine in its two phases (the join-awaiting
loop and the active message loop) plus its `finally` cleanup block.

Modelling conventions:
* A Python dict key may be `None` (the code stores `clients[client_id]`
  where `client_id = data.get('userId')` can be `None`), so registry keys
  are `Option String`, with `none` standing for Python `None`.
* The registry is an association list with Python-dict semantics:
  assignment replaces the entry in place, deletion removes it, iteration
  follows insertion order.
* A websocket channel is identified by a numeric id (`wsId`); the
  environment supplies `fails : Nat → Bool` saying which channels'
  awaited sends raise (`ConnectionClosed`, write error, timeout).
* `json.loads` of an inbound text frame yields either a decode error
  (`Inbound.unparseable`), a JSON value that is not an object
  (`Inbound.nonObject` — subscripting it with a string raises
  `TypeError`), or an object whose fields are modelled by `Frame` with
  `none` meaning the field is absent (subscripting raises `KeyError`,
  `.get` returns `None`).
-/

set_option autoImplicit false

namespace PyServer

/-- A Python dict key in `clients`: the client id string, or Python `None`
(possible because `client_id = data.get('userId')`). -/
abbrev Key := Option String

/-- One value of the `clients` dict:
`{'websocket': ws, 'username': u, 'joined': t}`. -/
structure Session where
  wsId : Nat
  username : String
  joined : String
deriving Repr, DecidableEq

/-- The global `clients` dict, as an insertion-ordered association list. -/
abbrev Registry := List (Key × Session)

/-- Python `clients[k] = v`: replace the entry for `k` in place if present,
otherwise append it. -/
def dictSet : Registry → Key → Session → Registry
  | [], k, v => [(k, v)]
  | p :: d, k, v => if p.1 = k then (k, v) :: d else p :: dictSet d k v

/-- Python `del clients[k]` (on a dict a key occurs at most once, so
removing the first occurrence is exact). -/
def dictDel : Registry → Key → Registry
  | [], _ => []
  | p :: d, k => if p.1 = k then d else p :: dictDel d k

/-- Python `clients[k]` as a read, or `clients.get(k)`. -/
def dictGet : Registry → Key → Option Session
  | [], _ => none
  | p :: d, k => if p.1 = k then some p.2 else dictGet d k

/-- Python `k in clients`. -/
def dictHasKey (d : Registry) (k : Key) : Bool :=
  (dictGet d k).isSome

/-- The keys of the dict, in iteration order. -/
def keysOf (d : Registry) : List Key :=
  d.map Prod.fst

/-- All session records stored under key `k` (on a genuine dict this list
has at most one element). -/
def entriesFor (d : Registry) (k : Key) : List Session :=
  (d.filter (fun p => decide (p.1 = k))).map Prod.snd

/-- An outbound envelope, the argument of `json.dumps` handed to
`broadcast`: the `users` snapshot, a `system` notice, or a chat `message`
`{'type':'message','text':…,'username':…,'userId':…,'time':…}`. -/
inductive Envelope where
  | users (snapshot : List (Key × String))
  | system (text : String)
  | message (text : String) (username : String) (userId : String) (time : String)
deriving Repr, DecidableEq

/-- An inbound JSON object's fields, `none` meaning the field is absent:
`data['f']` raises `KeyError` on `none`, `data.get('f')` yields it as-is. -/
structure Frame where
  type? : Option String
  userId? : Option String
  username? : Option String
  text? : Option String
  time? : Option String
deriving Repr, DecidableEq

/-- The result of `json.loads` on one inbound text frame. -/
inductive Inbound where
  | unparseable
  | nonObject
  | obj (fr : Frame)
deriving Repr, DecidableEq

/-- Python `client['websocket'].send(message)` as it appears inside the
`for` loop of `broadcast`: calling an `async def` method only *creates* a
coroutine object and never raises; a failure of the send surfaces later,
when the coroutine is awaited inside `asyncio.gather`. Hence this always
succeeds, returning the pending task (channel id, payload). -/
def createSendTask (wsId : Nat) (m : Envelope) : Except Unit (Nat × Envelope) :=
  Except.ok (wsId, m)

/-- The collection loop of `broadcast`: for each client, try to create the
send task (`tasks.append(...)`); on an exception, record the client id in
`disconnected` instead. -/
def collectTasks (m : Envelope) : Registry → List (Nat × Envelope) × List Key
  | [] => ([], [])
  | (cid, s) :: rest =>
    let r := collectTasks m rest
    match createSendTask s.wsId m with
    | Except.ok t => (t :: r.1, r.2)
    | Except.error _ => (r.1, cid :: r.2)

/-- Awaiting one send task: raises iff the environment says that channel's
send fails. -/
def awaitTask (fails : Nat → Bool) (t : Nat × Envelope) : Except Unit Unit :=
  if fails t.1 then Except.error () else Except.ok ()

/-- `asyncio.gather(*tasks, return_exceptions=re)`: awaits every task; with
`re = true` exceptions are returned as values and `gather` itself never
raises, with `re = false` the first exception propagates. -/
def pyGather (re : Bool) (fails : Nat → Bool) (ts : List (Nat × Envelope)) :
    Except Unit (List (Except Unit Unit)) :=
  let rs := ts.map (awaitTask fails)
  if re then Except.ok rs
  else if rs.any (fun r => match r with | Except.ok _ => false | Except.error _ => true)
  then Except.error () else Except.ok rs

/-- What one `broadcast` call did: the registry it leaves behind, the
per-channel outcome of each attempted send (`true` = delivered), and
whether the call itself raised. -/
structure BRes where
  reg : Registry
  outcomes : List (Nat × Bool)
  raised : Bool
deriving Repr, DecidableEq

/-- `broadcast(message)` (src/server.py lines 111-132): return at once if
`clients` is empty; loop over `clients` collecting send tasks (recording
clients whose task *creation* raised in `disconnected`); delete the
`disconnected` entries; then `await asyncio.gather(*tasks,
return_exceptions=True)` if any tasks exist. -/
def broadcast (fails : Nat → Bool) (clients : Registry) (m : Envelope) : BRes :=
  if clients.isEmpty then ⟨clients, [], false⟩
  else
    let td := collectTasks m clients
    let clients1 := td.2.foldl (fun d k => dictDel d k) clients
    if td.1.isEmpty then ⟨clients1, [], false⟩
    else
      match pyGather true fails td.1 with
      | Except.ok rs =>
        ⟨clients1,
         (td.1.zip rs).map
           (fun p => (p.1.1, match p.2 with | Except.ok _ => true | Except.error _ => false)),
         false⟩
      | Except.error _ => ⟨clients1, [], true⟩

/-- The `users_data` comprehension of `broadcast_users`:
`{uid: {'username': d['username']} for uid, d in clients.items()}`. -/
def snapshotUsers (d : Registry) : List (Key × String) :=
  d.map (fun p => (p.1, p.2.username))

/-- The envelopes handed to `broadcast` by one handler action, each with
its per-channel outcomes. -/
abbrev Sent := List (Envelope × List (Nat × Bool))

/-- `broadcast_users()`: build the users snapshot from the current
`clients` and broadcast it (its `try/except` only logs, so the state
effect is exactly that of the inner `broadcast`). -/
def broadcastUsers (fails : Nat → Bool) (reg : Registry) :
    Registry × (Envelope × List (Nat × Bool)) :=
  let env := Envelope.users (snapshotUsers reg)
  let b := broadcast fails reg env
  (b.reg, (env, b.outcomes))

/-- `broadcast_system(text)`: broadcast a `system` envelope (its
`try/except` only logs). -/
def broadcastSystem (fails : Nat → Bool) (reg : Registry) (text : String) :
    Registry × (Envelope × List (Nat × Bool)) :=
  let env := Envelope.system text
  let b := broadcast fails reg env
  (b.reg, (env, b.outcomes))

/-- Outcome of processing one inbound frame in the first loop of `handler`
(the join-awaiting phase):
* `stay` — the loop continues, still awaiting a join;
* `toActive` — a `join` was processed: `client_id`/`username` were
  assigned, the session stored, the two broadcasts sent, and `break`
  leaves the first loop for the message loop;
* `crash` — an exception other than `json.JSONDecodeError` escaped the
  loop body (only `JSONDecodeError` is caught there), so the handler
  aborts to its outer handlers and `finally` block. -/
inductive AwaitRes where
  | stay (reg : Registry) (sent : Sent)
  | toActive (clientId : Key) (username : String) (reg : Registry) (sent : Sent)
  | crash (reg : Registry)
deriving Repr, DecidableEq

/-- One iteration of the first `async for` loop of `handler`
(src/server.py lines 23-49), processing inbound frame `inb` while the
connection (channel `ws`) is not yet joined; `now` is the server clock
reading used for `datetime.now().isoformat()`. -/
def awaitStep (fails : Nat → Bool) (now : String) (reg : Registry) (ws : Nat)
    (inb : Inbound) : AwaitRes :=
  match inb with
  | Inbound.unparseable => AwaitRes.stay reg []
  | Inbound.nonObject => AwaitRes.crash reg
  | Inbound.obj fr =>
    match fr.type? with
    | none => AwaitRes.crash reg
    | some t =>
      if t = "join" then
        let cid := fr.userId?
        let uname := fr.username?.getD "Unknown"
        let reg1 := dictSet reg cid ⟨ws, uname, now⟩
        let r2 := broadcastUsers fails reg1
        let r3 := broadcastSystem fails r2.1 ("👤 " ++ uname ++ " присоединился к чату")
        AwaitRes.toActive cid uname r3.1 [r2.2, r3.2]
      else AwaitRes.stay reg []

/-- One iteration of the second `async for` loop of `handler`
(src/server.py lines 52-69), processing inbound frame `inb` while active.
Every exception in the body is caught (`JSONDecodeError` and the generic
`except Exception`), so the loop always continues: the result is the
registry left behind and what was broadcast. -/
def activeStep (fails : Nat → Bool) (now : String) (reg : Registry)
    (inb : Inbound) : Registry × Sent :=
  match inb with
  | Inbound.unparseable => (reg, [])
  | Inbound.nonObject => (reg, [])
  | Inbound.obj fr =>
    match fr.type? with
    | none => (reg, [])
    | some t =>
      if t = "message" then
        match fr.text?, fr.username?, fr.userId? with
        | some tx, some un, some uid =>
          let env := Envelope.message tx un uid now
          let b := broadcast fails reg env
          (b.reg, [(env, b.outcomes)])
        | _, _, _ => (reg, [])
      else (reg, [])

/-- Python truthiness of the `client_id` variable (`None` and `''` are
falsy), as tested by `if client_id and client_id in clients:`. -/
def truthy : Key → Bool
  | none => false
  | some s => decide (s ≠ "")

/-- The `finally` block of `handler` (src/server.py lines 75-82): if
`client_id` is truthy and still a key of `clients`, read the stored
username, delete the entry, then `broadcast_users()` and a
`broadcast_system` "left" notice; otherwise do nothing. -/
def cleanup (fails : Nat → Bool) (clientId : Key) (reg : Registry) :
    Registry × Sent :=
  match truthy clientId, dictGet reg clientId with
  | true, some sess =>
    let reg1 := dictDel reg clientId
    let r2 := broadcastUsers fails reg1
    let r3 := broadcastSystem fails r2.1 ("👋 " ++ sess.username ++ " покинул чат")
    (r3.1, [r2.2, r3.2])
  | _, _ => (reg, [])

/-- How many `system` envelopes a handler action broadcast. -/
def countSystemSent (s : Sent) : Nat :=
  (s.filter (fun p => match p.1 with | Envelope.system _ => true | _ => false)).length

/-- How many `users` snapshot envelopes a handler action broadcast. -/
def countUsersSent (s : Sent) : Nat :=
  (s.filter (fun p => match p.1 with | Envelope.users _ => true | _ => false)).length

end PyServer

namespace PyServer

/-! ## Basic lemmas about the embedded operations -/

theorem collectTasks_eq (m : Envelope) (reg : Registry) :
    collectTasks m reg = (reg.map (fun p => (p.2.wsId, m)), []) := by
  induction reg with
  | nil => rfl
  | cons p rest ih =>
    obtain ⟨cid, s⟩ := p
    simp [collectTasks, createSendTask, ih]

theorem zip_map_self {α β γ : Type} (h : α → β) (k : α × β → γ) :
    ∀ l : List α, (l.zip (l.map h)).map k = l.map (fun x => k (x, h x))
  | [] => rfl
  | x :: l => by simp [zip_map_self h k l]

theorem zipAwait (fails : Nat → Bool) (ts : List (Nat × Envelope)) :
    (ts.zip (ts.map (awaitTask fails))).map
      (fun p => (p.1.1, match p.2 with | Except.ok _ => true | Except.error _ => false))
      = ts.map (fun t => (t.1, !fails t.1)) := by
  induction ts with
  | nil => rfl
  | cons t ts ih =>
    simp only [List.map_cons, List.zip_cons_cons, ih]
    by_cases h : fails t.1 <;> simp [awaitTask, h]

/-- What `broadcast` always does: the registry is returned unchanged (the
`disconnected` list is only fed by exceptions at coroutine creation, which
cannot happen), a send is attempted on every registered channel, the
per-channel outcome is decided by that channel alone, and the call never
raises (`return_exceptions=True`). -/
theorem broadcast_eq (fails : Nat → Bool) (reg : Registry) (m : Envelope) :
    broadcast fails reg m =
      ⟨reg, reg.map (fun p => (p.2.wsId, !fails p.2.wsId)), false⟩ := by
  cases reg with
  | nil => rfl
  | cons q rest =>
    simp only [broadcast, collectTasks_eq, pyGather, zipAwait]
    simp only [List.isEmpty_cons, Bool.false_eq_true, if_false, List.map_cons,
      List.foldl_nil, if_true, List.zip_cons_cons, List.map_cons]
    refine congrArg₂ (BRes.mk _) (congrArg₂ List.cons ?_ ?_) rfl
    · by_cases h : fails q.2.wsId <;> simp [awaitTask, h]
    · rw [zipAwait]
      simp [Function.comp]

theorem broadcastUsers_eq (fails : Nat → Bool) (reg : Registry) :
    broadcastUsers fails reg =
      (reg, (Envelope.users (snapshotUsers reg),
             reg.map (fun p => (p.2.wsId, !fails p.2.wsId)))) := by
  simp [broadcastUsers, broadcast_eq]

theorem broadcastSystem_eq (fails : Nat → Bool) (reg : Registry) (text : String) :
    broadcastSystem fails reg text =
      (reg, (Envelope.system text,
             reg.map (fun p => (p.2.wsId, !fails p.2.wsId)))) := by
  simp [broadcastSystem, broadcast_eq]

theorem keysOf_cons (p : Key × Session) (d : Registry) :
    keysOf (p :: d) = p.1 :: keysOf d := rfl

theorem dictGet_dictSet (d : Registry) (k : Key) (v : Session) :
    dictGet (dictSet d k v) k = some v := by
  induction d with
  | nil => simp [dictSet, dictGet]
  | cons p rest ih =>
    by_cases h : p.1 = k
    · simp [dictSet, dictGet, h]
    · simp [dictSet, dictGet, h, ih]

theorem dictGet_eq_none_of_not_mem (d : Registry) (k : Key)
    (h : k ∉ keysOf d) : dictGet d k = none := by
  induction d with
  | nil => rfl
  | cons p rest ih =>
    simp only [keysOf_cons, List.mem_cons, not_or] at h
    have hp : ¬p.1 = k := fun hh => h.1 hh.symm
    simp [dictGet, hp, ih h.2]

theorem mem_keysOf_dictSet (d : Registry) (k a : Key) (v : Session)
    (h : a ∈ keysOf (dictSet d k v)) : a = k ∨ a ∈ keysOf d := by
  induction d with
  | nil =>
    left
    simpa [dictSet, keysOf] using h
  | cons p rest ih =>
    by_cases hp : p.1 = k
    · simp only [dictSet, hp, if_true, keysOf_cons, List.mem_cons] at h
      rcases h with h | h
      · exact Or.inl h
      · exact Or.inr (by simp [keysOf_cons, h])
    · simp only [dictSet, hp, if_false, keysOf_cons, List.mem_cons] at h
      rcases h with h | h
      · exact Or.inr (by simp [keysOf_cons, h])
      · rcases ih h with h' | h'
        · exact Or.inl h'
        · exact Or.inr (by simp [keysOf_cons, h'])

theorem nodup_keysOf_dictSet (d : Registry) (k : Key) (v : Session)
    (h : (keysOf d).Nodup) : (keysOf (dictSet d k v)).Nodup := by
  induction d with
  | nil => simp [dictSet, keysOf]
  | cons p rest ih =>
    simp only [keysOf_cons, List.nodup_cons] at h
    by_cases hp : p.1 = k
    · simp only [dictSet, hp, if_true, keysOf_cons, List.nodup_cons]
      exact ⟨hp ▸ h.1, h.2⟩
    · simp only [dictSet, hp, if_false, keysOf_cons, List.nodup_cons]
      refine ⟨fun hm => ?_, ih h.2⟩
      rcases mem_keysOf_dictSet rest k p.1 v hm with h' | h'
      · exact hp h'
      · exact h.1 h'

theorem entriesFor_dictSet (d : Registry) (k : Key) (v : Session)
    (h : (keysOf d).Nodup) : entriesFor (dictSet d k v) k = [v] := by
  induction d with
  | nil => simp [dictSet, entriesFor]
  | cons p rest ih =>
    simp only [keysOf_cons, List.nodup_cons] at h
    by_cases hp : p.1 = k
    · have hk : k ∉ keysOf rest := hp ▸ h.1
      have : rest.filter (fun p => decide (p.1 = k)) = [] := by
        apply List.filter_eq_nil_iff.2
        intro q hq hdec
        exact hk (by
          have : q.1 = k := of_decide_eq_true hdec
          exact this ▸ List.mem_map_of_mem Prod.fst hq)
      simp [dictSet, hp, entriesFor, this]
    · simp only [dictSet, hp, if_false]
      have := ih h.2
      simp [entriesFor, List.filter_cons, hp] at this ⊢
      exact this

theorem dictGet_dictDel_self (d : Registry) (k : Key)
    (h : (keysOf d).Nodup) : dictGet (dictDel d k) k = none := by
  induction d with
  | nil => rfl
  | cons p rest ih =>
    simp only [keysOf_cons, List.nodup_cons] at h
    by_cases hp : p.1 = k
    · simp only [dictDel, hp, if_true]
      exact dictGet_eq_none_of_not_mem rest k (hp ▸ h.1)
    · simp [dictDel, dictGet, hp, ih h.2]

end PyServer

namespace PyServer

/-- When `client_id` is truthy and still a key, the `finally` block deletes
the entry and broadcasts the `users` snapshot (computed after the delete)
and the "left" `system` notice carrying the *stored* username. -/
theorem cleanup_fires (fails : Nat → Bool) (cid : Key) (reg : Registry) (sess : Session)
    (ht : truthy cid = true) (hg : dictGet reg cid = some sess) :
    cleanup fails cid reg =
      (dictDel reg cid,
       [(Envelope.users (snapshotUsers (dictDel reg cid)),
         (dictDel reg cid).map (fun p => (p.2.wsId, !fails p.2.wsId))),
        (Envelope.system ("👋 " ++ sess.username ++ " покинул чат"),
         (dictDel reg cid).map (fun p => (p.2.wsId, !fails p.2.wsId)))]) := by
  unfold cleanup
  rw [ht, hg]
  simp [broadcastUsers_eq, broadcastSystem_eq]

/-- When `client_id` is falsy, or its key is no longer in `clients`, the
`finally` block does nothing: no deletion and no announcement. -/
theorem cleanup_skips (fails : Nat → Bool) (cid : Key) (reg : Registry)
    (h : truthy cid = false ∨ dictGet reg cid = none) :
    cleanup fails cid reg = (reg, []) := by
  unfold cleanup
  rcases h with h | h
  · rw [h]
  · rw [h]
    cases truthy cid <;> rfl

end PyServer

namespace PyServer

/-! ## Claim theorems -/

/-- C1: the claim says every recipient whose send attempt fails is removed
from the registry by the time `broadcast` returns. The code contradicts
this (and its own `# Удаляем отключившихся клиентов` removal machinery):
`disconnected` is only populated by exceptions at coroutine *creation*,
which never raise, while the actual send failure surfaces inside
`asyncio.gather(..., return_exceptions=True)` and is discarded. At the
failing input — one registered session whose channel's every send fails —
`broadcast` returns with the send attempt failed, the call not raising,
and the failed recipient still present in the registry. -/
theorem c1_failed_send_recipient_not_removed :
    broadcast (fun _ => true) [(some "u1", ⟨1, "Alice", "t0"⟩)] (Envelope.system "hi")
      = ⟨[(some "u1", ⟨1, "Alice", "t0"⟩)], [(1, false)], false⟩ ∧
    dictGet (broadcast (fun _ => true) [(some "u1", ⟨1, "Alice", "t0"⟩)]
        (Envelope.system "hi")).reg (some "u1") = some ⟨1, "Alice", "t0"⟩ := by
  exact ⟨rfl, rfl⟩

/-- C2 counterexample: a `join` frame with the `userId` field absent is
*not* treated as malformed. The handler registers a session under the
Python `None` key, emits the two broadcasts, and leaves the join-awaiting
state, contradicting the claim at this concrete input. -/
theorem c2_join_without_userid_counterexample :
    awaitStep (fun _ => false) "t0" [] 5
        (Inbound.obj ⟨some "join", none, some "Alice", none, none⟩)
      = AwaitRes.toActive none "Alice" [(none, ⟨5, "Alice", "t0"⟩)]
          [(Envelope.users [(none, "Alice")], [(5, true)]),
           (Envelope.system ("👤 " ++ "Alice" ++ " присоединился к чату"), [(5, true)])] := by
  rfl

/-- C2 amended: a `join` frame whose `userId` is absent, and likewise one
whose `userId` is the empty string, is processed like any other join
(`client_id = data.get('userId')` with no validation): the handler stores
a session under that missing identity (the Python `None` dict key) or
empty identity (the `""` key), broadcasts the `users` snapshot reflecting
the new entry followed by the `system` join announcement, and transitions
out of the join-awaiting state to the active state. -/
theorem c2_amended_join_without_userid_registers (fails : Nat → Bool)
    (now : String) (reg : Registry) (ws : Nat) (un tx tm : Option String) :
    (awaitStep fails now reg ws (Inbound.obj ⟨some "join", none, un, tx, tm⟩)
      = AwaitRes.toActive none (un.getD "Unknown")
          (dictSet reg none ⟨ws, un.getD "Unknown", now⟩)
          [(Envelope.users (snapshotUsers (dictSet reg none ⟨ws, un.getD "Unknown", now⟩)),
            (dictSet reg none ⟨ws, un.getD "Unknown", now⟩).map
              (fun p => (p.2.wsId, !fails p.2.wsId))),
           (Envelope.system ("👤 " ++ un.getD "Unknown" ++ " присоединился к чату"),
            (dictSet reg none ⟨ws, un.getD "Unknown", now⟩).map
              (fun p => (p.2.wsId, !fails p.2.wsId)))]) ∧
    (awaitStep fails now reg ws (Inbound.obj ⟨some "join", some "", un, tx, tm⟩)
      = AwaitRes.toActive (some "") (un.getD "Unknown")
          (dictSet reg (some "") ⟨ws, un.getD "Unknown", now⟩)
          [(Envelope.users (snapshotUsers (dictSet reg (some "") ⟨ws, un.getD "Unknown", now⟩)),
            (dictSet reg (some "") ⟨ws, un.getD "Unknown", now⟩).map
              (fun p => (p.2.wsId, !fails p.2.wsId))),
           (Envelope.system ("👤 " ++ un.getD "Unknown" ++ " присоединился к чату"),
            (dictSet reg (some "") ⟨ws, un.getD "Unknown", now⟩).map
              (fun p => (p.2.wsId, !fails p.2.wsId)))]) ∧
    dictGet (dictSet reg none ⟨ws, un.getD "Unknown", now⟩) none
      = some ⟨ws, un.getD "Unknown", now⟩ ∧
    dictGet (dictSet reg (some "") ⟨ws, un.getD "Unknown", now⟩) (some "")
      = some ⟨ws, un.getD "Unknown", now⟩ := by
  refine ⟨?_, ?_, dictGet_dictSet _ _ _, dictGet_dictSet _ _ _⟩ <;>
    simp [awaitStep, broadcastUsers_eq, broadcastSystem_eq]

/-- C3 counterexample: a frame that parses as JSON but lacks the `type`
field (here the empty object) raises a `KeyError` that the join-awaiting
loop does not catch (it only catches `json.JSONDecodeError`), so the
handler crashes out of the loop instead of dropping the frame and
remaining in the join-awaiting state. -/
theorem c3_missing_type_field_counterexample :
    awaitStep (fun _ => false) "t0" [] 7 (Inbound.obj ⟨none, none, none, none, none⟩)
      = AwaitRes.crash [] := by
  rfl

/-- C3 amended: in the join-awaiting state, unparseable JSON is caught and
dropped with the handler staying put; but a frame that parses to a
non-object, or to an object without a `type` field, raises an uncaught
exception that terminates the handler (which then runs its `finally`
cleanup with no registered session). -/
theorem c3_amended_awaiting_parse_behavior (fails : Nat → Bool) (now : String)
    (reg : Registry) (ws : Nat) (uid un tx tm : Option String) :
    awaitStep fails now reg ws Inbound.unparseable = AwaitRes.stay reg [] ∧
    awaitStep fails now reg ws Inbound.nonObject = AwaitRes.crash reg ∧
    awaitStep fails now reg ws (Inbound.obj ⟨none, uid, un, tx, tm⟩)
      = AwaitRes.crash reg := by
  exact ⟨rfl, rfl, rfl⟩

/-- C4: `broadcast` never raises, attempts a send to every recipient in
the snapshot no matter which individual sends fail, and on an empty
snapshot returns immediately as a no-op. -/
theorem c4_broadcast_isolation (fails : Nat → Bool) (reg : Registry) (m : Envelope) :
    (broadcast fails reg m).raised = false ∧
    (broadcast fails reg m).outcomes.map Prod.fst = reg.map (fun p => p.2.wsId) ∧
    broadcast fails [] m = ⟨[], [], false⟩ := by
  refine ⟨?_, ?_, rfl⟩ <;> simp [broadcast_eq]

end PyServer

namespace PyServer

/-- C5: `clients[client_id] = {...}` keeps at most one session per id: a
second register with the same id replaces the first entry in place,
leaving exactly one entry for that id, holding the latest display name,
and preserving key uniqueness. -/
theorem c5_duplicate_id_replaces (reg : Registry) (k : Key) (s1 s2 : Session)
    (h : (keysOf reg).Nodup) :
    entriesFor (dictSet (dictSet reg k s1) k s2) k = [s2] ∧
    dictGet (dictSet (dictSet reg k s1) k s2) k = some s2 ∧
    (keysOf (dictSet (dictSet reg k s1) k s2)).Nodup := by
  refine ⟨entriesFor_dictSet _ _ _ (nodup_keysOf_dictSet _ _ _ h),
          dictGet_dictSet _ _ _,
          nodup_keysOf_dictSet _ _ _ (nodup_keysOf_dictSet _ _ _ h)⟩

theorem c5_witness :
    (keysOf [(some "z", (⟨9, "Zoe", "tz"⟩ : Session))]).Nodup ∧
    (entriesFor (dictSet (dictSet [(some "z", ⟨9, "Zoe", "tz"⟩)]
          (some "u1") ⟨1, "A", "t1"⟩) (some "u1") ⟨2, "B", "t2"⟩) (some "u1")
        = [⟨2, "B", "t2"⟩] ∧
     dictGet (dictSet (dictSet [(some "z", ⟨9, "Zoe", "tz"⟩)]
          (some "u1") ⟨1, "A", "t1"⟩) (some "u1") ⟨2, "B", "t2"⟩) (some "u1")
        = some ⟨2, "B", "t2"⟩ ∧
     (keysOf (dictSet (dictSet [(some "z", ⟨9, "Zoe", "tz"⟩)]
          (some "u1") ⟨1, "A", "t1"⟩) (some "u1") ⟨2, "B", "t2"⟩)).Nodup) :=
  ⟨by decide,
   c5_duplicate_id_replaces [(some "z", ⟨9, "Zoe", "tz"⟩)]
     (some "u1") ⟨1, "A", "t1"⟩ ⟨2, "B", "t2"⟩ (by decide)⟩

/-- C6: running the `finally` cleanup twice for the same connection (same
`client_id`) broadcasts at most one "left" `system` notice and at most one
`users` snapshot in total: the first firing deletes the id, so the second
run finds no entry and does nothing. -/
theorem c6_cleanup_idempotent (fails : Nat → Bool) (cid : Key) (reg : Registry)
    (h : (keysOf reg).Nodup) :
    countSystemSent ((cleanup fails cid reg).2
        ++ (cleanup fails cid (cleanup fails cid reg).1).2) ≤ 1 ∧
    countUsersSent ((cleanup fails cid reg).2
        ++ (cleanup fails cid (cleanup fails cid reg).1).2) ≤ 1 := by
  cases htr : truthy cid with
  | false =>
    simp [cleanup_skips fails cid reg (Or.inl htr), countSystemSent, countUsersSent]
  | true =>
    cases hg : dictGet reg cid with
    | none =>
      simp [cleanup_skips fails cid reg (Or.inr hg), countSystemSent, countUsersSent]
    | some sess =>
      have h2 : dictGet (dictDel reg cid) cid = none := dictGet_dictDel_self reg cid h
      simp [cleanup_fires fails cid reg sess htr hg,
            cleanup_skips fails cid (dictDel reg cid) (Or.inr h2),
            countSystemSent, countUsersSent]

theorem c6_witness :
    (keysOf [(some "u1", (⟨1, "Alice", "t0"⟩ : Session))]).Nodup ∧
    (countSystemSent ((cleanup (fun _ => false) (some "u1")
          [(some "u1", ⟨1, "Alice", "t0"⟩)]).2
        ++ (cleanup (fun _ => false) (some "u1")
            (cleanup (fun _ => false) (some "u1")
              [(some "u1", ⟨1, "Alice", "t0"⟩)]).1).2) ≤ 1 ∧
     countUsersSent ((cleanup (fun _ => false) (some "u1")
          [(some "u1", ⟨1, "Alice", "t0"⟩)]).2
        ++ (cleanup (fun _ => false) (some "u1")
            (cleanup (fun _ => false) (some "u1")
              [(some "u1", ⟨1, "Alice", "t0"⟩)]).1).2) ≤ 1) :=
  ⟨by decide,
   c6_cleanup_idempotent (fun _ => false) (some "u1")
     [(some "u1", ⟨1, "Alice", "t0"⟩)] (by decide)⟩

/-- C7: a `message`-tagged frame arriving in the join-awaiting loop falls
through the `if data['type'] == 'join'` test: nothing is registered,
nothing is broadcast, and the loop keeps awaiting a join. -/
theorem c7_premature_message_ignored (fails : Nat → Bool) (now : String)
    (reg : Registry) (ws : Nat) (uid un tx tm : Option String) :
    awaitStep fails now reg ws (Inbound.obj ⟨some "message", uid, un, tx, tm⟩)
      = AwaitRes.stay reg [] := by
  simp [awaitStep]

/-- C8: the chat envelope the active loop broadcasts is stamped with the
server's own clock reading `now` — the inbound frame's `time` field `tm`
is quantified and absent from the result — and the send is attempted on
every session in the snapshot (the sender's own session, being an element
of the registry, included; no recipient is excluded). -/
theorem c8_server_timestamp_full_fanout (fails : Nat → Bool) (now : String)
    (reg : Registry) (tx un uid : String) (tm : Option String) :
    activeStep fails now reg
        (Inbound.obj ⟨some "message", some uid, some un, some tx, tm⟩)
      = (reg, [(Envelope.message tx un uid now,
                reg.map (fun p => (p.2.wsId, !fails p.2.wsId)))]) := by
  simp [activeStep, broadcast_eq]

end PyServer

namespace PyServer

/-- C9: the `finally` cleanup is keyed by `client_id` alone, never by
channel identity. If a later join reused the id (replacing the entry with
a session on channel `w2` under display name `uname2`), then the cleanup
run by the *earlier* connection's handler (channel `w1`) finds the later
session under its id, deletes that live session's entry, and broadcasts a
"left" notice carrying the later session's display name. -/
theorem c9_cleanup_keyed_by_id (fails : Nat → Bool) (reg reg0 : Registry)
    (id uname1 uname2 t1 t2 : String) (w1 w2 : Nat)
    (hid : id ≠ "") (h : (keysOf reg).Nodup)
    (hr : reg0 = dictSet (dictSet reg (some id) ⟨w1, uname1, t1⟩)
                   (some id) ⟨w2, uname2, t2⟩) :
    dictGet reg0 (some id) = some ⟨w2, uname2, t2⟩ ∧
    (cleanup fails (some id) reg0).1 = dictDel reg0 (some id) ∧
    (cleanup fails (some id) reg0).2 =
      [(Envelope.users (snapshotUsers (dictDel reg0 (some id))),
        (dictDel reg0 (some id)).map (fun p => (p.2.wsId, !fails p.2.wsId))),
       (Envelope.system ("👋 " ++ uname2 ++ " покинул чат"),
        (dictDel reg0 (some id)).map (fun p => (p.2.wsId, !fails p.2.wsId)))] ∧
    dictGet (cleanup fails (some id) reg0).1 (some id) = none := by
  subst hr
  have hget := dictGet_dictSet
    (dictSet reg (some id) ⟨w1, uname1, t1⟩) (some id) (⟨w2, uname2, t2⟩ : Session)
  have htr : truthy (some id) = true := by simp [truthy, hid]
  have hnd : (keysOf (dictSet (dictSet reg (some id) ⟨w1, uname1, t1⟩)
      (some id) ⟨w2, uname2, t2⟩)).Nodup :=
    nodup_keysOf_dictSet _ _ _ (nodup_keysOf_dictSet _ _ _ h)
  have hfire := cleanup_fires fails (some id) _ _ htr hget
  refine ⟨hget, ?_, ?_, ?_⟩
  · rw [hfire]
  · rw [hfire]
  · rw [hfire]
    exact dictGet_dictDel_self _ _ hnd

theorem c9_witness :
    ("u1" : String) ≠ "" ∧
    (keysOf ([] : Registry)).Nodup ∧
    ([(some "u1", (⟨2, "Bob", "t2"⟩ : Session))] : Registry)
      = dictSet (dictSet [] (some "u1") ⟨1, "Ann", "t1"⟩) (some "u1") ⟨2, "Bob", "t2"⟩ ∧
    (dictGet [(some "u1", ⟨2, "Bob", "t2"⟩)] (some "u1") = some ⟨2, "Bob", "t2"⟩ ∧
     (cleanup (fun _ => false) (some "u1") [(some "u1", ⟨2, "Bob", "t2"⟩)]).1
       = dictDel [(some "u1", ⟨2, "Bob", "t2"⟩)] (some "u1") ∧
     (cleanup (fun _ => false) (some "u1") [(some "u1", ⟨2, "Bob", "t2"⟩)]).2 =
       [(Envelope.users (snapshotUsers
           (dictDel [(some "u1", ⟨2, "Bob", "t2"⟩)] (some "u1"))),
         (dictDel [(some "u1", ⟨2, "Bob", "t2"⟩)] (some "u1")).map
           (fun p => (p.2.wsId, !(fun _ => false) p.2.wsId))),
        (Envelope.system ("👋 " ++ "Bob" ++ " покинул чат"),
         (dictDel [(some "u1", ⟨2, "Bob", "t2"⟩)] (some "u1")).map
           (fun p => (p.2.wsId, !(fun _ => false) p.2.wsId)))] ∧
     dictGet (cleanup (fun _ => false) (some "u1")
         [(some "u1", ⟨2, "Bob", "t2"⟩)]).1 (some "u1") = none) :=
  ⟨by decide, by decide, by decide,
   c9_cleanup_keyed_by_id (fun _ => false) [] [(some "u1", ⟨2, "Bob", "t2"⟩)]
     "u1" "Ann" "Bob" "t1" "t2" 1 2 (by decide) (by decide) (by decide)⟩

/-- C10: the chat envelope's `username` and `userId` are copied verbatim
from the inbound frame — the result is the same for every registry, so no
lookup of the sender's registered session takes place — and a `message`
frame missing any of `text`, `username`, `userId` is dropped (`KeyError`
caught by the active loop's generic handler): no broadcast, registry
untouched, and the active loop simply continues. -/
theorem c10_chat_fields_verbatim_and_drop (fails : Nat → Bool) (now : String)
    (reg : Registry) (tx un uid : String) (tm uidX unX txX tmX : Option String) :
    activeStep fails now reg
        (Inbound.obj ⟨some "message", some uid, some un, some tx, tm⟩)
      = (reg, [(Envelope.message tx un uid now,
                reg.map (fun p => (p.2.wsId, !fails p.2.wsId)))]) ∧
    activeStep fails now reg (Inbound.obj ⟨some "message", none, unX, txX, tmX⟩)
      = (reg, []) ∧
    activeStep fails now reg (Inbound.obj ⟨some "message", uidX, none, txX, tmX⟩)
      = (reg, []) ∧
    activeStep fails now reg (Inbound.obj ⟨some "message", uidX, unX, none, tmX⟩)
      = (reg, []) := by
  refine ⟨?_, ?_, ?_, ?_⟩
  · simp [activeStep, broadcast_eq]
  · cases txX <;> cases unX <;> rfl
  · cases txX <;> rfl
  · rfl

end PyServer
